import Mathlib

/-!
# Verification of the SIP execution-and-reconciliation engine

Shallow embedding of the core of the `sip-systems` C++ repository:
the scheduler (`src/scheduler/SIPScheduler.h`), the SIP lifecycle service
(`src/services/SIPServiceImpl.h`), the portfolio valuation engine
(`src/services/PortfolioServiceImpl.h`), the in-memory repositories, and
the calendar utility (`DateUtils`).

Modelling conventions:
* C++ `double` amounts, NAVs and units are embedded as exact rationals `ℚ`
  (IEEE rounding is abstracted; every formula is transcribed literally).
* `std::chrono::system_clock::time_point` dates are embedded as calendar
  triples (year, month, day); the C++ code only ever creates midnight
  time points via `mktime`, so calendar arithmetic is the faithful level.
  A fixed-offset (DST-free) local time is assumed, as in a UTC build.
* The keyed `unordered_map` stores are embedded as association lists with
  `std::unordered_map`-style `operator[]` insert-or-assign (`put`) and
  `update`-only-if-present (`updIfPresent`) operations.
* Thrown C++ exceptions become `Except Err` results; code that mutates
  shared stores before throwing returns the mutated stores alongside the
  error (`World × Option Err`), matching the absence of rollback.
-/

namespace SipSystems

/-- Embeds `SIPFrequency` from `src/models/Enums.h`. -/
inductive SIPFrequency where
  | WEEKLY
  | MONTHLY
  | QUARTERLY
deriving DecidableEq, Repr

/-- Embeds `SIPState` from `src/models/Enums.h`. -/
inductive SIPState where
  | ACTIVE
  | PAUSED
  | STOPPED
deriving DecidableEq, Repr

/-- Embeds `PaymentStatus` from `src/models/Enums.h`. -/
inductive PaymentStatus where
  | PENDING
  | SUCCESS
  | FAILURE
deriving DecidableEq, Repr

/-- Embeds `TransactionType` from `src/models/Enums.h`. -/
inductive TransactionType where
  | INSTALLMENT
  | LUMP_SUM
deriving DecidableEq, Repr

/-- Embeds `toString(SIPState)` from `src/models/Enums.h`. -/
def sipStateToString : SIPState → String
  | .ACTIVE => "ACTIVE"
  | .PAUSED => "PAUSED"
  | .STOPPED => "STOPPED"

/-- A calendar date: embedding of `std::chrono::system_clock::time_point`
at midnight, as produced by `DateUtils::createDate`. -/
structure Date where
  year : Nat
  month : Nat
  day : Nat
deriving DecidableEq, Repr

/-- Chronological strict order on midnight time points (`date1 < date2`). -/
def dateLt (a b : Date) : Bool :=
  a.year < b.year ||
    (a.year == b.year &&
      (a.month < b.month || (a.month == b.month && a.day < b.day)))

/-- Embeds `DateUtils::isOnOrBefore`: `date1 <= date2` on time points. -/
def isOnOrBefore (a b : Date) : Bool :=
  a.year < b.year ||
    (a.year == b.year &&
      (a.month < b.month || (a.month == b.month && a.day ≤ b.day)))

/-- Embeds `DateUtils::isLeapYear`. -/
def isLeapYear (year : Nat) : Bool :=
  (year % 4 == 0 && year % 100 != 0) || year % 400 == 0

/-- Embeds `DateUtils::getDaysInMonth` (month is 1-based). -/
def getDaysInMonth (year month : Nat) : Nat :=
  let table := [31, 28, 31, 30, 31, 30, 31, 31, 30, 31, 30, 31]
  let days := table.getD (month - 1) 31
  if month == 2 && isLeapYear year then 29 else days

/-- One day forward on the calendar: the effect of adding 24 hours to a
midnight time point, read back through `localtime`. -/
def nextDay (d : Date) : Date :=
  if d.day < getDaysInMonth d.year d.month then
    { d with day := d.day + 1 }
  else if d.month < 12 then
    { year := d.year, month := d.month + 1, day := 1 }
  else
    { year := d.year + 1, month := 1, day := 1 }

/-- Adding `n` days: iterated `nextDay`. -/
def addDays (d : Date) : Nat → Date
  | 0 => d
  | n + 1 => addDays (nextDay d) n

/-- Embeds `DateUtils::addWeeks`: `date + 24*7*weeks` hours, i.e. `7*weeks`
calendar days at a fixed offset. -/
def addWeeks (d : Date) (weeks : Nat) : Date :=
  addDays d (7 * weeks)

/-- Embeds `DateUtils::addMonths` for a non-negative month count: `tm_mon += months`
followed by the `while (tm_mon > 11)` normalisation (which for non-negative
overflow is division by 12), then the day-overflow clamp to the target
month's last day. -/
def addMonths (d : Date) (months : Nat) : Date :=
  let mon0 := d.month - 1 + months
  let year := d.year + mon0 / 12
  let month := mon0 % 12 + 1
  let daysInMonth := getDaysInMonth year month
  let day := if d.day > daysInMonth then daysInMonth else d.day
  { year := year, month := month, day := day }

/-- Embeds `DateUtils::addQuarters`: `addMonths(date, quarters * 3)`. -/
def addQuarters (d : Date) (quarters : Nat) : Date :=
  addMonths d (quarters * 3)

/-- Embeds `SIP` from `src/models/SIP.h` (display-only helpers omitted). -/
structure SIP where
  id : String
  userId : String
  fundId : String
  baseAmount : ℚ
  frequency : SIPFrequency
  state : SIPState
  startDate : Date
  nextExecutionDate : Date
  installmentCount : Int
  stepUpPercentage : ℚ
deriving DecidableEq, Repr

/-- Embeds `Transaction` from `src/models/Transaction.h`. -/
structure Transaction where
  id : String
  sipId : String
  amount : ℚ
  units : ℚ
  nav : ℚ
  status : PaymentStatus
  date : Date
  type : TransactionType
  callbackProcessed : Bool
deriving DecidableEq, Repr

/-- The six-argument `Transaction` constructor: starts `PENDING`,
`callbackProcessed = false`, and computes `units = amount / nav` only when
`nav > 0` (otherwise units stay at the member initialiser `0`). -/
def Transaction.mk6 (id sipId : String) (amount nav : ℚ) (date : Date)
    (type : TransactionType) : Transaction :=
  { id := id, sipId := sipId, amount := amount
    units := if nav > 0 then amount / nav else 0
    nav := nav, status := .PENDING, date := date, type := type
    callbackProcessed := false }

/-!
## The step-up compounding formula

Three textually identical private copies exist in the source; each is
transcribed separately so their agreement is a theorem about the code,
not an artefact of sharing one definition.  `std::pow` on the integer
exponent `installmentNumber - 1` (which is ≥ 1 in the branch where it is
used) is exact integer exponentiation.
-/

/-- Embeds `SIPScheduler::calculateSteppedUpAmount` (src/scheduler/SIPScheduler.h). -/
def SIPScheduler.calculateSteppedUpAmount (baseAmount stepUpPercentage : ℚ)
    (installmentNumber : Int) : ℚ :=
  if stepUpPercentage ≤ 0 ∨ installmentNumber ≤ 1 then baseAmount
  else
    let factor := (1 + stepUpPercentage / 100) ^ (installmentNumber - 1).toNat
    baseAmount * factor

/-- Embeds `SIPServiceImpl::calculateSteppedUpAmount` (src/services/SIPServiceImpl.h). -/
def SIPServiceImpl.calculateSteppedUpAmount (baseAmount stepUpPercentage : ℚ)
    (installmentNumber : Int) : ℚ :=
  if stepUpPercentage ≤ 0 ∨ installmentNumber ≤ 1 then baseAmount
  else
    let factor := (1 + stepUpPercentage / 100) ^ (installmentNumber - 1).toNat
    baseAmount * factor

/-- Embeds `PortfolioServiceImpl::calculateSteppedUpAmount`
(src/services/PortfolioServiceImpl.h). -/
def PortfolioServiceImpl.calculateSteppedUpAmount (baseAmount stepUpPercentage : ℚ)
    (installmentNumber : Int) : ℚ :=
  if stepUpPercentage ≤ 0 ∨ installmentNumber ≤ 1 then baseAmount
  else
    let factor := (1 + stepUpPercentage / 100) ^ (installmentNumber - 1).toNat
    baseAmount * factor

/-- The spec's own wording of the formula (§4.1): amount = `baseAmount` if
`stepUpPercentage <= 0 or n <= 1`, else
`baseAmount * (1 + stepUpPercentage/100)^(n-1)`. -/
def specSteppedUpAmount (baseAmount stepUpPercentage : ℚ) (n : Int) : ℚ :=
  if stepUpPercentage ≤ 0 ∨ n ≤ 1 then baseAmount
  else baseAmount * (1 + stepUpPercentage / 100) ^ (n - 1).toNat

/-!
## Keyed stores

`std::unordered_map<std::string, T>` storage embedded as an association
list.  `put` is `storage[id] = v` (insert-or-assign, used by `add`);
`updIfPresent` is the repositories' `update`, which replaces the mapped
value only when the key is present (and otherwise returns `false`,
leaving the store untouched).
-/

/-- A keyed entity store. -/
abbrev Store (α : Type) : Type := List (String × α)

/-- Embeds `getById`: `storage.find(id)`. -/
def Store.get {α : Type} : Store α → String → Option α
  | [], _ => none
  | (k, v) :: rest, key => if k = key then some v else Store.get rest key

/-- Embeds `storage[id] = v`: insert-or-assign. -/
def Store.put {α : Type} : Store α → String → α → Store α
  | [], key, v => [(key, v)]
  | (k, v') :: rest, key, v =>
    if k = key then (k, v) :: rest else (k, v') :: Store.put rest key v

/-- Embeds `update(entity)`: replace the mapped value when the key is present,
otherwise leave the store unchanged (the C++ `update` returns `false`). -/
def Store.updIfPresent {α : Type} : Store α → String → α → Store α
  | [], _, _ => []
  | (k, v') :: rest, key, v =>
    if k = key then (k, v) :: rest else (k, v') :: Store.updIfPresent rest key v

/-- All stored values, in store order (`getAll` / map iteration). -/
def Store.values {α : Type} (s : Store α) : List α := s.map (·.2)

/-!
## Errors

`src/utils/Exceptions.h` exception taxonomy, restricted to what the
embedded operations can throw.  `InvalidStateException(sipId, state, op)`
carries exactly the three strings the C++ constructor receives.
-/

/-- Thrown exceptions of the embedded operations. -/
inductive Err where
  | sipNotFound (sipId : String)
  | fundNotFound (fundId : String)
  | userNotFound (userId : String)
  | invalidState (sipId state operation : String)
  | validation (message : String)
deriving DecidableEq, Repr

/-!
## SIP lifecycle service (`SIPServiceImpl`)

Each operation reads the SIP store, throws before any mutation on a
guard failure, and writes through `update` on success — so failure is
modelled as `.error` with the store untouched.
-/

/-- Embeds `SIPServiceImpl::pauseSIP`. -/
def pauseSIP (sips : Store SIP) (sipId : String) : Except Err (Store SIP) :=
  match sips.get sipId with
  | none => .error (.sipNotFound sipId)
  | some sip =>
    if sip.state = .PAUSED then
      .error (.invalidState sipId (sipStateToString sip.state) "pause")
    else if sip.state = .STOPPED then
      .error (.invalidState sipId (sipStateToString sip.state) "pause")
    else
      .ok (sips.updIfPresent sipId { sip with state := .PAUSED })

/-- Embeds `SIPServiceImpl::unpauseSIP`. -/
def unpauseSIP (sips : Store SIP) (sipId : String) : Except Err (Store SIP) :=
  match sips.get sipId with
  | none => .error (.sipNotFound sipId)
  | some sip =>
    if sip.state = .ACTIVE then
      .error (.invalidState sipId (sipStateToString sip.state) "unpause")
    else if sip.state = .STOPPED then
      .error (.invalidState sipId (sipStateToString sip.state) "unpause")
    else
      .ok (sips.updIfPresent sipId { sip with state := .ACTIVE })

/-- Embeds `SIPServiceImpl::stopSIP`. -/
def stopSIP (sips : Store SIP) (sipId : String) : Except Err (Store SIP) :=
  match sips.get sipId with
  | none => .error (.sipNotFound sipId)
  | some sip =>
    if sip.state = .STOPPED then
      .error (.invalidState sipId (sipStateToString sip.state) "stop")
    else
      .ok (sips.updIfPresent sipId { sip with state := .STOPPED })

/-- Embeds `SIPServiceImpl::modifyStepUp`. -/
def modifyStepUp (sips : Store SIP) (sipId : String) (newStepUpPercentage : ℚ) :
    Except Err (Store SIP) :=
  match sips.get sipId with
  | none => .error (.sipNotFound sipId)
  | some sip =>
    if sip.state = .STOPPED then
      .error (.invalidState sipId (sipStateToString sip.state) "modify step-up")
    else if newStepUpPercentage < 0 then
      .error (.validation "Step-up percentage cannot be negative")
    else
      .ok (sips.updIfPresent sipId { sip with stepUpPercentage := newStepUpPercentage })

/-- Embeds `SIPServiceImpl::onPaymentSuccess`: increment the installment count. -/
def onPaymentSuccess (sips : Store SIP) (sipId : String) : Except Err (Store SIP) :=
  match sips.get sipId with
  | none => .error (.sipNotFound sipId)
  | some sip =>
    .ok (sips.updIfPresent sipId
          { sip with installmentCount := sip.installmentCount + 1 })

/-- Embeds `SIPServiceImpl::calculateNextExecutionDate` (frequency dispatch;
the three-case enum makes the C++ `default` branch unreachable). -/
def calculateNextExecutionDate (currentDate : Date) (frequency : SIPFrequency) : Date :=
  match frequency with
  | .WEEKLY => addWeeks currentDate 1
  | .MONTHLY => addMonths currentDate 1
  | .QUARTERLY => addQuarters currentDate 1

/-- Embeds `SIPServiceImpl::updateNextExecutionDate`: recompute the next execution
date from the SIP's *current* `nextExecutionDate` (not from today). -/
def updateNextExecutionDate (sips : Store SIP) (sipId : String) :
    Except Err (Store SIP) :=
  match sips.get sipId with
  | none => .error (.sipNotFound sipId)
  | some sip =>
    let nextDate := calculateNextExecutionDate sip.nextExecutionDate sip.frequency
    .ok (sips.updIfPresent sipId { sip with nextExecutionDate := nextDate })

/-- Embeds `SIPServiceImpl::calculateCurrentInstallmentAmount`. -/
def calculateCurrentInstallmentAmount (sips : Store SIP) (sipId : String) :
    Except Err ℚ :=
  match sips.get sipId with
  | none => .error (.sipNotFound sipId)
  | some sip =>
    .ok (SIPServiceImpl.calculateSteppedUpAmount sip.baseAmount
          sip.stepUpPercentage (sip.installmentCount + 1))

/-!
## Scheduler and reconciler (`SIPScheduler`)

The engine's mutable collaborators are gathered into one `World`:
the SIP store, the transaction store, the `IdGenerator` atomic counter,
and the list of payment submissions handed to the payment collaborator
(`initiatePayment(txnId, amount, callback-bound-to-sipId)`); settlement
is asynchronous, so submission only records the request.  The market
price oracle is a parameter `nav : String → Option ℚ`
(`none` = `getCurrentNAV` throws `FundNotFoundException`).
-/

/-- A payment submitted to the payment collaborator: the transaction id,
the amount, and the SIP id captured by the completion callback. -/
structure PaymentRequest where
  transactionId : String
  amount : ℚ
  sipId : String
deriving DecidableEq, Repr

/-- The engine's mutable state. -/
structure World where
  sips : Store SIP
  txns : Store Transaction
  nextId : Nat
  payments : List PaymentRequest
deriving Repr

/-- Zero-pad a digit string to width 6 (`std::setfill('0') << std::setw(6)`). -/
def pad6 (s : String) : String :=
  if s.length < 6 then String.mk (List.replicate (6 - s.length) '0') ++ s else s

/-- Embeds `IdGenerator::generateSimple` with a given prefix, at counter value
`count`. -/
def generateSimple (pfx : String) (count : Nat) : String :=
  pfx ++ "_" ++ pad6 (toString count)

/-- Embeds `IdGenerator::generateTransactionId()` at counter value `count`. -/
def generateTransactionId (count : Nat) : String :=
  generateSimple "TXN" count

/-- Embeds `SIPScheduler::isDue`: ACTIVE and `nextExecutionDate <= asOfDate`. -/
def isDue (sip : SIP) (asOfDate : Date) : Bool :=
  if sip.state ≠ .ACTIVE then false
  else isOnOrBefore sip.nextExecutionDate asOfDate

/-- Embeds `InMemorySIPRepository::getDueSIPs`: the ACTIVE SIPs whose
`nextExecutionDate <= asOfDate`, in store order. -/
def getDueSIPs (sips : Store SIP) (asOfDate : Date) : List SIP :=
  (sips.values).filter
    (fun sip => sip.state = .ACTIVE && isOnOrBefore sip.nextExecutionDate asOfDate)

/-- Embeds `SIPScheduler::executeSIP`: skip non-ACTIVE SIPs; fetch the NAV
(throwing `FundNotFound` before any mutation if the fund is unknown);
compute the stepped-up amount and `units = amount / nav`; create the
PENDING transaction (constructor, then `setUnits`, then `setStatus`),
persist it, and submit the payment. -/
def executeSIP (nav : String → Option ℚ) (w : World) (sip : SIP)
    (executionDate : Date) : Except Err World :=
  if sip.state ≠ .ACTIVE then .ok w
  else
    match nav sip.fundId with
    | none => .error (.fundNotFound sip.fundId)
    | some navValue =>
      let amount := SIPScheduler.calculateSteppedUpAmount sip.baseAmount
        sip.stepUpPercentage (sip.installmentCount + 1)
      let units := amount / navValue
      let txnId := generateTransactionId w.nextId
      let txn := Transaction.mk6 txnId sip.id amount navValue executionDate .INSTALLMENT
      let txn := { txn with units := units, status := .PENDING }
      .ok { w with
              txns := w.txns.put txnId txn
              nextId := w.nextId + 1
              payments := w.payments ++ [⟨txnId, amount, sip.id⟩] }

/-- Embeds `SIPScheduler::executeDueSIPs`: per-SIP try/continue boundary, counting
the SIPs for which `executeSIP` returned normally. -/
def executeDueSIPs (nav : String → Option ℚ) (w : World) (asOfDate : Date) :
    Nat × World :=
  (getDueSIPs w.sips asOfDate).foldl
    (fun acc sip =>
      match executeSIP nav acc.2 sip asOfDate with
      | .ok w' => (acc.1 + 1, w')
      | .error _ => acc)
    (0, w)

/-- Embeds `SIPScheduler::handlePaymentCallback`: the payment-callback reconciler.
Unknown transaction → no-op; `callbackProcessed` already set → no-op
(the idempotency guard); otherwise set the status and the flag, persist,
and on SUCCESS drive `onPaymentSuccess` then `updateNextExecutionDate`.
A thrown `SIPNotFound` propagates, but the transaction update made before
the throw is not rolled back, so the partially-updated world is returned
with the error. -/
def handlePaymentCallback (w : World) (transactionId sipId : String)
    (status : PaymentStatus) : World × Option Err :=
  match w.txns.get transactionId with
  | none => (w, none)
  | some txn =>
    if txn.callbackProcessed then (w, none)
    else
      let txn' := { txn with status := status, callbackProcessed := true }
      let w1 := { w with txns := w.txns.updIfPresent transactionId txn' }
      if status = .SUCCESS then
        match onPaymentSuccess w1.sips sipId with
        | .error e => (w1, some e)
        | .ok sips2 =>
          match updateNextExecutionDate sips2 sipId with
          | .error e => ({ w1 with sips := sips2 }, some e)
          | .ok sips3 => ({ w1 with sips := sips3 }, none)
      else (w1, none)

/-!
## Portfolio valuation engine (`PortfolioServiceImpl`)
-/

/-- Embeds `InMemoryTransactionRepository::getBySipId`: the transactions owned by
one SIP (the `sipIndex` secondary index, embedded as a filter over the
store). -/
def getBySipId (txns : Store Transaction) (sipId : String) : List Transaction :=
  (txns.values).filter (fun txn => txn.sipId = sipId)

/-- Embeds `InMemoryTransactionRepository::getSuccessfulBySipId`. -/
def getSuccessfulBySipId (txns : Store Transaction) (sipId : String) :
    List Transaction :=
  (getBySipId txns sipId).filter (fun txn => txn.status = .SUCCESS)

/-- Embeds `SIPPortfolioItem` (src/services/IPortfolioService.h), numeric fields. -/
structure SIPPortfolioItem where
  sip : SIP
  fundName : String
  currentNav : ℚ
  totalInvested : ℚ
  totalUnits : ℚ
  currentValue : ℚ
  gainLoss : ℚ
  gainLossPercentage : ℚ
  currentInstallmentAmount : ℚ
  nextInstallmentAmount : ℚ
deriving Repr

/-- Embeds `PortfolioServiceImpl::buildPortfolioItem`.  The two collaborator
reads are parameters: `fundName?` is `fundRepository->getById(fundId)`
projected to the name, `nav?` is `getCurrentNAV` (`none` = it threw,
caught and replaced by `0.0`). -/
def buildPortfolioItem (txns : Store Transaction) (sip : SIP)
    (fundName? : Option String) (nav? : Option ℚ) : SIPPortfolioItem :=
  let fundName := match fundName? with
    | some n => n
    | none => "Unknown Fund"
  let currentNav := match nav? with
    | some v => v
    | none => 0
  let transactions := getSuccessfulBySipId txns sip.id
  let totalInvested : ℚ := transactions.foldl (fun acc txn => acc + txn.amount) 0
  let totalUnits : ℚ := transactions.foldl (fun acc txn => acc + txn.units) 0
  let currentValue := totalUnits * currentNav
  let gainLoss := currentValue - totalInvested
  let gainLossPercentage :=
    if totalInvested > 0 then gainLoss / totalInvested * 100 else 0
  let nextInstallment := sip.installmentCount + 1
  { sip := sip, fundName := fundName, currentNav := currentNav
    totalInvested := totalInvested, totalUnits := totalUnits
    currentValue := currentValue, gainLoss := gainLoss
    gainLossPercentage := gainLossPercentage
    currentInstallmentAmount := PortfolioServiceImpl.calculateSteppedUpAmount
      sip.baseAmount sip.stepUpPercentage nextInstallment
    nextInstallmentAmount := PortfolioServiceImpl.calculateSteppedUpAmount
      sip.baseAmount sip.stepUpPercentage (nextInstallment + 1) }

/-- The transaction record after the reconciler applies an outcome:
status set, "callback applied" flag set, every other field untouched. -/
def Transaction.withOutcome (txn : Transaction) (status : PaymentStatus) : Transaction :=
  { txn with status := status, callbackProcessed := true }

/-- The SIP record after the reconciler's SUCCESS path
(`onPaymentSuccess` then `updateNextExecutionDate`): installment count
incremented once and the schedule advanced from the prior
`nextExecutionDate`, every other field untouched. -/
def SIP.afterSuccess (sip : SIP) : SIP :=
  { sip with
    installmentCount := sip.installmentCount + 1
    nextExecutionDate := calculateNextExecutionDate sip.nextExecutionDate sip.frequency }

/-- The transaction `executeSIP` creates and persists: constructor
(`Transaction.mk6`) followed by `setUnits(amount / nav)` and
`setStatus(PENDING)`, with the id drawn from the generator at counter
value `count`. -/
def engineTransaction (sip : SIP) (navValue : ℚ) (executionDate : Date)
    (count : Nat) : Transaction :=
  let amount := SIPScheduler.calculateSteppedUpAmount sip.baseAmount
    sip.stepUpPercentage (sip.installmentCount + 1)
  let txn := Transaction.mk6 (generateTransactionId count) sip.id amount navValue
    executionDate .INSTALLMENT
  { txn with units := amount / navValue, status := .PENDING }

/-!
## Concrete fixtures (used by witnesses and counterexamples)
-/

/-- A concrete calendar date. -/
def dEx : Date := ⟨2025, 1, 15⟩

/-- A concrete ACTIVE SIP. -/
def sipEx : SIP :=
  { id := "S1", userId := "U1", fundId := "F1", baseAmount := 1000
    frequency := .MONTHLY, state := .ACTIVE, startDate := ⟨2025, 1, 1⟩
    nextExecutionDate := ⟨2025, 1, 1⟩, installmentCount := 0
    stepUpPercentage := 10 }

/-- A concrete PENDING transaction owned by `sipEx`, callback not applied. -/
def txnEx : Transaction :=
  { id := "T1", sipId := "S1", amount := 1000, units := 10, nav := 100
    status := .PENDING, date := dEx, type := .INSTALLMENT
    callbackProcessed := false }

/-- A world holding `sipEx` and `txnEx`. -/
def wEx : World :=
  { sips := [("S1", sipEx)], txns := [("T1", txnEx)], nextId := 2, payments := [] }

/-- The transaction `txnEx` after its callback has been applied with SUCCESS. -/
def txnProcessedEx : Transaction :=
  { txnEx with status := .SUCCESS, callbackProcessed := true }

/-- A world whose only transaction already has the "callback applied" flag. -/
def wProcessedEx : World :=
  { wEx with txns := [("T1", txnProcessedEx)] }

/-- A world holding `txnEx` but no SIP at all. -/
def wNoSipEx : World :=
  { sips := [], txns := [("T1", txnEx)], nextId := 2, payments := [] }

/-- A PAUSED copy of `sipEx`. -/
def sipPausedEx : SIP := { sipEx with state := .PAUSED }

/-- A single-SIP store holding the ACTIVE `sipEx`. -/
def sipsEx : Store SIP := [("S1", sipEx)]

/-- A single-SIP store holding the PAUSED `sipPausedEx`. -/
def sipsPausedEx : Store SIP := [("S1", sipPausedEx)]

/-- A SIP with no step-up, used for the valuation example. -/
def sipV : SIP :=
  { id := "S1", userId := "U1", fundId := "F1", baseAmount := 1000
    frequency := .MONTHLY, state := .ACTIVE, startDate := ⟨2025, 1, 1⟩
    nextExecutionDate := ⟨2025, 3, 1⟩, installmentCount := 2
    stepUpPercentage := 0 }

/-- First SUCCESS transaction of the spec's valuation example:
amount 1000, units 10. -/
def txnV1 : Transaction :=
  { id := "T1", sipId := "S1", amount := 1000, units := 10, nav := 100
    status := .SUCCESS, date := ⟨2025, 1, 1⟩, type := .INSTALLMENT
    callbackProcessed := true }

/-- Second SUCCESS transaction of the spec's valuation example:
amount 1100, units 10. -/
def txnV2 : Transaction :=
  { txnV1 with id := "T2", amount := 1100, units := 10, nav := 110 }

/-- The example transaction ledger. -/
def txnsV : Store Transaction := [("T1", txnV1), ("T2", txnV2)]

/-- The valuation example's portfolio item at `currentNAV = 120`. -/
def itemV : SIPPortfolioItem := buildPortfolioItem txnsV sipV none (some 120)

/-- A market oracle answering every fund id with NAV −10 (reachable in the
source through `MockMarketPriceService::setNAVs`, which does not validate
positivity). -/
def navNegEx : String → Option ℚ := fun _ => some (-10)

/-- A market oracle answering every fund id with NAV 100. -/
def navPosEx : String → Option ℚ := fun _ => some 100

/-- A zero-step-up ACTIVE SIP for the unit-computation claims. -/
def sipX : SIP :=
  { id := "S1", userId := "U1", fundId := "F1", baseAmount := 1000
    frequency := .MONTHLY, state := .ACTIVE, startDate := ⟨2025, 1, 1⟩
    nextExecutionDate := ⟨2025, 1, 1⟩, installmentCount := 0
    stepUpPercentage := 0 }

/-- A world holding only `sipX`, with the id counter at 1. -/
def wX : World :=
  { sips := [("S1", sipX)], txns := [], nextId := 1, payments := [] }

/-- The transaction the engine records for `sipX` at NAV −10:
units = 1000 / (−10) = −100, not 0. -/
def txnXresult : Transaction :=
  { id := generateTransactionId 1, sipId := "S1", amount := 1000, units := -100
    nav := -10, status := .PENDING, date := ⟨2025, 1, 1⟩, type := .INSTALLMENT
    callbackProcessed := false }

/-- A world with no SIPs at all. -/
def wEmptyEx : World := { sips := [], txns := [], nextId := 1, payments := [] }

/-!
## Store lemmas
-/

theorem Store.get_put_self {α : Type} (s : Store α) (k : String) (v : α) :
    (s.put k v).get k = some v := by
  induction s with
  | nil => simp [Store.put, Store.get]
  | cons p rest ih =>
    obtain ⟨k', v'⟩ := p
    by_cases hk : k' = k
    · simp [Store.put, Store.get, hk]
    · simp [Store.put, Store.get, hk, ih]

theorem Store.get_updIfPresent_self {α : Type} (s : Store α) (k : String)
    (v x : α) (h : s.get k = some x) : (s.updIfPresent k v).get k = some v := by
  induction s with
  | nil => simp [Store.get] at h
  | cons p rest ih =>
    obtain ⟨k', v'⟩ := p
    by_cases hk : k' = k
    · simp [Store.updIfPresent, Store.get, hk]
    · simp [Store.get, hk] at h
      simp [Store.updIfPresent, Store.get, hk, ih h]

theorem Store.get_updIfPresent_ne {α : Type} (s : Store α) (k k2 : String)
    (v : α) (h : k2 ≠ k) : (s.updIfPresent k v).get k2 = s.get k2 := by
  induction s with
  | nil => simp [Store.updIfPresent]
  | cons p rest ih =>
    obtain ⟨k', v'⟩ := p
    by_cases hk : k' = k
    · subst hk
      simp [Store.updIfPresent, Store.get, Ne.symm h]
    · simp [Store.updIfPresent, Store.get, hk, ih]

/-!
## Date lemmas
-/

theorem dateLt_trans {a b c : Date} (h1 : dateLt a b = true)
    (h2 : dateLt b c = true) : dateLt a c = true := by
  simp only [dateLt, Bool.or_eq_true, Bool.and_eq_true, decide_eq_true_eq,
    beq_iff_eq] at h1 h2 ⊢
  omega

theorem dateLt_nextDay (d : Date) : dateLt d (nextDay d) = true := by
  unfold nextDay
  split_ifs with h1 h2 <;> simp [dateLt]

theorem dateLt_addDays (n : Nat) : ∀ d : Date, 1 ≤ n →
    dateLt d (addDays d n) = true := by
  induction n with
  | zero => intro d h; exact absurd h (by omega)
  | succ m ih =>
    intro d _
    rcases Nat.eq_zero_or_pos m with h0 | hpos
    · subst h0
      simpa [addDays] using dateLt_nextDay d
    · exact dateLt_trans (dateLt_nextDay d) (ih (nextDay d) hpos)

theorem dateLt_addMonths (d : Date) (m : Nat) (h : 1 ≤ m) :
    dateLt d (addMonths d m) = true := by
  simp only [dateLt, addMonths, Bool.or_eq_true, Bool.and_eq_true,
    decide_eq_true_eq, beq_iff_eq]
  omega

theorem dateLt_calculateNextExecutionDate (d : Date) (f : SIPFrequency) :
    dateLt d (calculateNextExecutionDate d f) = true := by
  cases f with
  | WEEKLY => exact dateLt_addDays 7 d (by norm_num)
  | MONTHLY => exact dateLt_addMonths d 1 (by norm_num)
  | QUARTERLY => exact dateLt_addMonths d 3 (by norm_num)

/-!
## Reconciler lemmas
-/

theorem handle_noop_of_missing (w : World) (tid sid : String) (st : PaymentStatus)
    (h : w.txns.get tid = none) : handlePaymentCallback w tid sid st = (w, none) := by
  simp [handlePaymentCallback, h]

theorem handle_noop_of_processed (w : World) (tid sid : String) (st : PaymentStatus)
    (txn : Transaction) (hget : w.txns.get tid = some txn)
    (hproc : txn.callbackProcessed = true) :
    handlePaymentCallback w tid sid st = (w, none) := by
  simp [handlePaymentCallback, hget, hproc]

theorem handle_txns_after (w : World) (tid sid : String) (st : PaymentStatus)
    (txn : Transaction) (hget : w.txns.get tid = some txn)
    (hproc : txn.callbackProcessed = false) :
    ((handlePaymentCallback w tid sid st).1).txns =
      w.txns.updIfPresent tid (txn.withOutcome st) := by
  by_cases hst : st = .SUCCESS
  · subst hst
    cases honP : onPaymentSuccess w.sips sid with
    | error e =>
      simp [handlePaymentCallback, Transaction.withOutcome, hget, hproc, honP]
    | ok sips2 =>
      cases hupd : updateNextExecutionDate sips2 sid with
      | error e =>
        simp [handlePaymentCallback, Transaction.withOutcome, hget, hproc, honP, hupd]
      | ok sips3 =>
        simp [handlePaymentCallback, Transaction.withOutcome, hget, hproc, honP, hupd]
  · simp [handlePaymentCallback, Transaction.withOutcome, hget, hproc, hst]

theorem handle_failure_eq (w : World) (tid sid : String) (txn : Transaction)
    (hget : w.txns.get tid = some txn) (hproc : txn.callbackProcessed = false) :
    handlePaymentCallback w tid sid .FAILURE =
      ({ w with txns := w.txns.updIfPresent tid (txn.withOutcome .FAILURE) }, none) := by
  simp [handlePaymentCallback, Transaction.withOutcome, hget, hproc]

theorem handle_success_eq (w : World) (tid sid : String)
    (txn : Transaction) (sip : SIP)
    (hget : w.txns.get tid = some txn) (hproc : txn.callbackProcessed = false)
    (hsip : w.sips.get sid = some sip) :
    handlePaymentCallback w tid sid .SUCCESS =
      ({ w with
          txns := w.txns.updIfPresent tid (txn.withOutcome .SUCCESS)
          sips := (w.sips.updIfPresent sid
              { sip with installmentCount := sip.installmentCount + 1 }).updIfPresent sid
            sip.afterSuccess },
        none) := by
  have honP : onPaymentSuccess w.sips sid =
      .ok (w.sips.updIfPresent sid
        { sip with installmentCount := sip.installmentCount + 1 }) := by
    simp [onPaymentSuccess, hsip]
  have hget2 : (w.sips.updIfPresent sid
      { sip with installmentCount := sip.installmentCount + 1 }).get sid =
      some { sip with installmentCount := sip.installmentCount + 1 } :=
    Store.get_updIfPresent_self _ _ _ _ hsip
  have hupd : updateNextExecutionDate
      (w.sips.updIfPresent sid
        { sip with installmentCount := sip.installmentCount + 1 }) sid =
      .ok ((w.sips.updIfPresent sid
          { sip with installmentCount := sip.installmentCount + 1 }).updIfPresent sid
        sip.afterSuccess) := by
    simp [updateNextExecutionDate, SIP.afterSuccess, hget2]
  simp [handlePaymentCallback, Transaction.withOutcome, hget, hproc, honP, hupd]

theorem handle_twice_fst (w : World) (tid sid : String) (st : PaymentStatus) :
    (handlePaymentCallback (handlePaymentCallback w tid sid st).1 tid sid st).1 =
      (handlePaymentCallback w tid sid st).1 := by
  cases hget : w.txns.get tid with
  | none =>
    rw [handle_noop_of_missing w tid sid st hget]
    rw [handle_noop_of_missing w tid sid st hget]
  | some txn =>
    by_cases hproc : txn.callbackProcessed
    · rw [handle_noop_of_processed w tid sid st txn hget hproc]
      rw [handle_noop_of_processed w tid sid st txn hget hproc]
    · have htx := handle_txns_after w tid sid st txn hget (by simpa using hproc)
      have hget2 : ((handlePaymentCallback w tid sid st).1).txns.get tid =
          some (txn.withOutcome st) := by
        rw [htx]
        exact Store.get_updIfPresent_self _ _ _ _ hget
      rw [handle_noop_of_processed _ tid sid st _ hget2 rfl]

/-!
## Claim theorems
-/

/-- C1: for every transaction whose "callback applied" flag is already set,
`handlePaymentCallback` is a no-op; delivering the same callback outcome
twice for one transaction yields exactly the same final state (transaction
store and SIP store) as delivering it once; and on SUCCESS the owning SIP's
installment count is incremented exactly once. -/
theorem C1_callback_idempotent :
    (∀ (w : World) (tid sid : String) (st : PaymentStatus) (txn : Transaction),
      w.txns.get tid = some txn → txn.callbackProcessed = true →
      handlePaymentCallback w tid sid st = (w, none)) ∧
    (∀ (w : World) (tid sid : String) (st : PaymentStatus),
      (handlePaymentCallback (handlePaymentCallback w tid sid st).1 tid sid st).1 =
        (handlePaymentCallback w tid sid st).1) ∧
    (∀ (w : World) (tid sid : String) (txn : Transaction) (sip : SIP),
      w.txns.get tid = some txn → txn.callbackProcessed = false →
      w.sips.get sid = some sip →
      ∃ sip' : SIP,
        ((handlePaymentCallback w tid sid .SUCCESS).1).sips.get sid = some sip' ∧
        sip'.installmentCount = sip.installmentCount + 1 ∧
        ((handlePaymentCallback (handlePaymentCallback w tid sid .SUCCESS).1
            tid sid .SUCCESS).1).sips.get sid = some sip') := by
  refine ⟨handle_noop_of_processed, handle_twice_fst, ?_⟩
  intro w tid sid txn sip hget hproc hsip
  refine ⟨sip.afterSuccess, ?_, rfl, ?_⟩
  · rw [handle_success_eq w tid sid txn sip hget hproc hsip]
    exact Store.get_updIfPresent_self _ _ _ _
      (Store.get_updIfPresent_self _ _ _ _ hsip)
  · rw [handle_twice_fst w tid sid .SUCCESS]
    rw [handle_success_eq w tid sid txn sip hget hproc hsip]
    exact Store.get_updIfPresent_self _ _ _ _
      (Store.get_updIfPresent_self _ _ _ _ hsip)

/-- C3: delivering a FAILURE outcome to the reconciler for a not-yet-applied
transaction updates only that transaction's status and "callback applied"
flag and mutates no field of any SIP: the SIP store is unchanged (so
`installmentCount` and `nextExecutionDate` are unchanged), the set of due
SIPs on any later scheduler check is unchanged, and the compounding formula
re-derives the identical installment amount. -/
theorem C3_failure_frame (w : World) (tid sid : String) (txn : Transaction)
    (hget : w.txns.get tid = some txn) (hproc : txn.callbackProcessed = false) :
    handlePaymentCallback w tid sid .FAILURE =
      ({ w with txns := w.txns.updIfPresent tid (txn.withOutcome .FAILURE) }, none) ∧
    ((handlePaymentCallback w tid sid .FAILURE).1).sips = w.sips ∧
    ((handlePaymentCallback w tid sid .FAILURE).1).txns.get tid =
      some (txn.withOutcome .FAILURE) ∧
    (∀ k, k ≠ tid →
      ((handlePaymentCallback w tid sid .FAILURE).1).txns.get k = w.txns.get k) ∧
    (∀ asOfDate,
      getDueSIPs ((handlePaymentCallback w tid sid .FAILURE).1).sips asOfDate =
        getDueSIPs w.sips asOfDate) ∧
    (∀ sid2,
      calculateCurrentInstallmentAmount
          ((handlePaymentCallback w tid sid .FAILURE).1).sips sid2 =
        calculateCurrentInstallmentAmount w.sips sid2) := by
  have he := handle_failure_eq w tid sid txn hget hproc
  refine ⟨he, by rw [he], ?_, ?_, fun asOfDate => by rw [he], fun sid2 => by rw [he]⟩
  · rw [he]
    exact Store.get_updIfPresent_self _ _ _ _ hget
  · intro k hk
    rw [he]
    exact Store.get_updIfPresent_ne _ _ _ _ hk

/-- C9: once a transaction's "callback applied" flag is set, a later
delivery is a no-op regardless of the status it carries: after a first
FAILURE delivery, a conflicting SUCCESS redelivery leaves the world
untouched, the transaction stays FAILURE, and the SIP store (installment
count, next-execution date) is never advanced — first-delivery-wins. -/
theorem C9_first_delivery_wins (w : World) (tid sid : String) (txn : Transaction)
    (hget : w.txns.get tid = some txn) (hproc : txn.callbackProcessed = false) :
    handlePaymentCallback (handlePaymentCallback w tid sid .FAILURE).1
        tid sid .SUCCESS =
      ((handlePaymentCallback w tid sid .FAILURE).1, none) ∧
    ((handlePaymentCallback w tid sid .FAILURE).1).txns.get tid =
      some (txn.withOutcome .FAILURE) ∧
    ((handlePaymentCallback w tid sid .FAILURE).1).sips = w.sips := by
  have he := handle_failure_eq w tid sid txn hget hproc
  have hget2 : ((handlePaymentCallback w tid sid .FAILURE).1).txns.get tid =
      some (txn.withOutcome .FAILURE) := by
    rw [he]
    exact Store.get_updIfPresent_self _ _ _ _ hget
  exact ⟨handle_noop_of_processed _ tid sid .SUCCESS _ hget2 rfl, hget2, by rw [he]⟩

/-- C10: a SUCCESS callback for a transaction whose owning SIP id is absent
from the SIP store first persists the transaction as SUCCESS with the
"callback applied" flag set and then surfaces `SIPNotFound` from
`onPaymentSuccess`; the transaction update is not rolled back and no SIP is
mutated. -/
theorem C10_success_without_sip (w : World) (tid sid : String) (txn : Transaction)
    (hget : w.txns.get tid = some txn) (hproc : txn.callbackProcessed = false)
    (hsip : w.sips.get sid = none) :
    handlePaymentCallback w tid sid .SUCCESS =
      ({ w with txns := w.txns.updIfPresent tid (txn.withOutcome .SUCCESS) },
        some (Err.sipNotFound sid)) ∧
    ((handlePaymentCallback w tid sid .SUCCESS).1).txns.get tid =
      some (txn.withOutcome .SUCCESS) ∧
    ((handlePaymentCallback w tid sid .SUCCESS).1).sips = w.sips := by
  have he : handlePaymentCallback w tid sid .SUCCESS =
      ({ w with txns := w.txns.updIfPresent tid (txn.withOutcome .SUCCESS) },
        some (Err.sipNotFound sid)) := by
    simp [handlePaymentCallback, Transaction.withOutcome, hget, hproc,
      onPaymentSuccess, hsip]
  refine ⟨he, ?_, by rw [he]⟩
  rw [he]
  exact Store.get_updIfPresent_self _ _ _ _ hget

/-- C2: the three private copies of `calculateSteppedUpAmount` — scheduler
(execution time), SIP service, valuation engine (projection) — are equal as
functions, and each matches the spec's formula: `baseAmount` when
`stepUpPercentage <= 0` or `n <= 1`, else
`baseAmount * (1 + stepUpPercentage/100)^(n-1)` (1-indexed `n`); in exact
arithmetic the shared expression tree makes the copies bit-for-bit
reproducible. -/
theorem C2_steppedUpAmount_copies_agree :
    (∀ (b s : ℚ) (n : Int),
      SIPScheduler.calculateSteppedUpAmount b s n = specSteppedUpAmount b s n) ∧
    (∀ (b s : ℚ) (n : Int),
      SIPServiceImpl.calculateSteppedUpAmount b s n = specSteppedUpAmount b s n) ∧
    (∀ (b s : ℚ) (n : Int),
      PortfolioServiceImpl.calculateSteppedUpAmount b s n = specSteppedUpAmount b s n) ∧
    (∀ (b s : ℚ) (n : Int), s ≤ 0 ∨ n ≤ 1 → specSteppedUpAmount b s n = b) ∧
    (∀ (b s : ℚ) (n : Int), ¬(s ≤ 0 ∨ n ≤ 1) →
      specSteppedUpAmount b s n = b * (1 + s / 100) ^ (n - 1).toNat) ∧
    SIPScheduler.calculateSteppedUpAmount 1000 10 1 = 1000 ∧
    SIPScheduler.calculateSteppedUpAmount 1000 10 2 = 1100 ∧
    SIPScheduler.calculateSteppedUpAmount 1000 10 3 = 1210 := by
  refine ⟨fun _ _ _ => rfl, fun _ _ _ => rfl, fun _ _ _ => rfl,
    fun b s n h => if_pos h, fun b s n h => if_neg h, ?_, ?_, ?_⟩
  · unfold SIPScheduler.calculateSteppedUpAmount
    rw [if_pos (Or.inr (by norm_num))]
  · unfold SIPScheduler.calculateSteppedUpAmount
    rw [if_neg (by norm_num), show ((2 : Int) - 1).toNat = 1 from rfl]
    norm_num
  · unfold SIPScheduler.calculateSteppedUpAmount
    rw [if_neg (by norm_num), show ((3 : Int) - 1).toNat = 2 from rfl]
    norm_num

/-- C4: `updateNextExecutionDate` (advanceSchedule) replaces the stored
SIP's `nextExecutionDate` with the deterministic calendar formula applied to
the prior `nextExecutionDate` (today is not an input), the new date is
strictly later than the prior one, and the formula is: WEEKLY → +7 days,
MONTHLY → +1 calendar month, QUARTERLY → +3 calendar months, with the day
clamped to the target month's last valid day and leap years handled
(Jan 31 2024 + 1 month = Feb 29 2024; Jan 31 2023 + 1 month = Feb 28 2023). -/
theorem C4_advanceSchedule (sips : Store SIP) (sipId : String) (sip : SIP)
    (hget : sips.get sipId = some sip) :
    updateNextExecutionDate sips sipId =
      .ok (sips.updIfPresent sipId
        { sip with nextExecutionDate :=
            calculateNextExecutionDate sip.nextExecutionDate sip.frequency }) ∧
    dateLt sip.nextExecutionDate
      (calculateNextExecutionDate sip.nextExecutionDate sip.frequency) = true ∧
    (∀ d, calculateNextExecutionDate d .WEEKLY = addDays d 7) ∧
    (∀ d, calculateNextExecutionDate d .MONTHLY = addMonths d 1) ∧
    (∀ d, calculateNextExecutionDate d .QUARTERLY = addMonths d 3) ∧
    addMonths ⟨2024, 1, 31⟩ 1 = ⟨2024, 2, 29⟩ ∧
    addMonths ⟨2023, 1, 31⟩ 1 = ⟨2023, 2, 28⟩ ∧
    addMonths ⟨2023, 10, 31⟩ 3 = ⟨2024, 1, 31⟩ := by
  refine ⟨by simp [updateNextExecutionDate, hget],
    dateLt_calculateNextExecutionDate _ _,
    fun d => rfl, fun d => rfl, fun d => rfl, by decide, by decide, by decide⟩

/-- C5: for a stored SIP, `pause` succeeds exactly from ACTIVE, `unpause`
exactly from PAUSED, `stop` exactly from ACTIVE or PAUSED, and
`modifyStepUp` (with a non-negative new percentage) exactly from any
non-STOPPED state; every illegal attempt fails with an `InvalidState` error
naming the SIP id, its current state, and the attempted operation, leaving
the store unmodified. -/
theorem C5_lifecycle_guards (sips : Store SIP) (sipId : String) (sip : SIP)
    (hget : sips.get sipId = some sip) :
    (sip.state = .ACTIVE →
      pauseSIP sips sipId =
        .ok (sips.updIfPresent sipId { sip with state := .PAUSED })) ∧
    (sip.state ≠ .ACTIVE →
      pauseSIP sips sipId =
        .error (.invalidState sipId (sipStateToString sip.state) "pause")) ∧
    (sip.state = .PAUSED →
      unpauseSIP sips sipId =
        .ok (sips.updIfPresent sipId { sip with state := .ACTIVE })) ∧
    (sip.state ≠ .PAUSED →
      unpauseSIP sips sipId =
        .error (.invalidState sipId (sipStateToString sip.state) "unpause")) ∧
    (sip.state ≠ .STOPPED →
      stopSIP sips sipId =
        .ok (sips.updIfPresent sipId { sip with state := .STOPPED })) ∧
    (sip.state = .STOPPED →
      stopSIP sips sipId =
        .error (.invalidState sipId (sipStateToString sip.state) "stop")) ∧
    (∀ p : ℚ, 0 ≤ p →
      (sip.state ≠ .STOPPED →
        modifyStepUp sips sipId p =
          .ok (sips.updIfPresent sipId { sip with stepUpPercentage := p })) ∧
      (sip.state = .STOPPED →
        modifyStepUp sips sipId p =
          .error (.invalidState sipId (sipStateToString sip.state)
            "modify step-up"))) := by
  refine ⟨?_, ?_, ?_, ?_, ?_, ?_, ?_⟩
  · intro h
    simp [pauseSIP, hget, h]
  · intro h
    cases hstate : sip.state with
    | ACTIVE => exact absurd hstate h
    | PAUSED => simp [pauseSIP, hget, hstate]
    | STOPPED => simp [pauseSIP, hget, hstate]
  · intro h
    simp [unpauseSIP, hget, h]
  · intro h
    cases hstate : sip.state with
    | ACTIVE => simp [unpauseSIP, hget, hstate]
    | PAUSED => exact absurd hstate h
    | STOPPED => simp [unpauseSIP, hget, hstate]
  · intro h
    cases hstate : sip.state with
    | ACTIVE => simp [stopSIP, hget, hstate]
    | PAUSED => simp [stopSIP, hget, hstate]
    | STOPPED => exact absurd hstate h
  · intro h
    simp [stopSIP, hget, h]
  · intro p hp
    constructor
    · intro h
      cases hstate : sip.state with
      | ACTIVE => simp [modifyStepUp, hget, hstate, not_lt.mpr hp]
      | PAUSED => simp [modifyStepUp, hget, hstate, not_lt.mpr hp]
      | STOPPED => exact absurd hstate h
    · intro h
      simp [modifyStepUp, hget, h]

/-!
## Valuation lemmas
-/

theorem foldl_add_eq_sum {α : Type} (f : α → ℚ) (l : List α) (init : ℚ) :
    l.foldl (fun acc x => acc + f x) init = init + (l.map f).sum := by
  induction l generalizing init with
  | nil => simp
  | cons a t ih => simp [ih, add_assoc]

theorem buildPortfolioItem_totalInvested (txns : Store Transaction) (sip : SIP)
    (fundName? : Option String) (nav? : Option ℚ) :
    (buildPortfolioItem txns sip fundName? nav?).totalInvested =
      ((getSuccessfulBySipId txns sip.id).map (·.amount)).sum := by
  simp [buildPortfolioItem, foldl_add_eq_sum]

theorem buildPortfolioItem_totalUnits (txns : Store Transaction) (sip : SIP)
    (fundName? : Option String) (nav? : Option ℚ) :
    (buildPortfolioItem txns sip fundName? nav?).totalUnits =
      ((getSuccessfulBySipId txns sip.id).map (·.units)).sum := by
  simp [buildPortfolioItem, foldl_add_eq_sum]

theorem buildPortfolioItem_gainLossPercentage (txns : Store Transaction) (sip : SIP)
    (fundName? : Option String) (nav? : Option ℚ) :
    (buildPortfolioItem txns sip fundName? nav?).gainLossPercentage =
      if (buildPortfolioItem txns sip fundName? nav?).totalInvested > 0 then
        (buildPortfolioItem txns sip fundName? nav?).gainLoss /
          (buildPortfolioItem txns sip fundName? nav?).totalInvested * 100
      else 0 := rfl

/-- C6: the valuation engine computes `totalInvested` and `totalUnits` as the
sums of `amount` resp. `units` over the SIP's SUCCESS transactions,
`currentValue = totalUnits * currentNAV`,
`gainLoss = currentValue - totalInvested`, and
`gainLossPercentage = gainLoss / totalInvested * 100` with value 0 when
`totalInvested` is 0; on the spec's example (two SUCCESS transactions of
(1000, 10) and (1100, 10) at NAV 120) this yields 2100, 20, 2400, 300 and
≈ 14.29. -/
theorem C6_valuation (txns : Store Transaction) (sip : SIP)
    (fundName? : Option String) (nav : ℚ) :
    (buildPortfolioItem txns sip fundName? (some nav)).totalInvested =
      ((getSuccessfulBySipId txns sip.id).map (·.amount)).sum ∧
    (buildPortfolioItem txns sip fundName? (some nav)).totalUnits =
      ((getSuccessfulBySipId txns sip.id).map (·.units)).sum ∧
    (buildPortfolioItem txns sip fundName? (some nav)).currentValue =
      (buildPortfolioItem txns sip fundName? (some nav)).totalUnits * nav ∧
    (buildPortfolioItem txns sip fundName? (some nav)).gainLoss =
      (buildPortfolioItem txns sip fundName? (some nav)).currentValue -
        (buildPortfolioItem txns sip fundName? (some nav)).totalInvested ∧
    ((buildPortfolioItem txns sip fundName? (some nav)).totalInvested = 0 →
      (buildPortfolioItem txns sip fundName? (some nav)).gainLossPercentage = 0) ∧
    (0 < (buildPortfolioItem txns sip fundName? (some nav)).totalInvested →
      (buildPortfolioItem txns sip fundName? (some nav)).gainLossPercentage =
        (buildPortfolioItem txns sip fundName? (some nav)).gainLoss /
          (buildPortfolioItem txns sip fundName? (some nav)).totalInvested * 100) ∧
    itemV.totalInvested = 2100 ∧
    itemV.totalUnits = 20 ∧
    itemV.currentValue = 2400 ∧
    itemV.gainLoss = 300 ∧
    itemV.gainLossPercentage = 100 / 7 ∧
    |(100 : ℚ) / 7 - 1429 / 100| < 1 / 100 := by
  have hti : itemV.totalInvested = 2100 := by
    norm_num [itemV, buildPortfolioItem, getSuccessfulBySipId, getBySipId,
      Store.values, txnsV, txnV1, txnV2, sipV]
  have htu : itemV.totalUnits = 20 := by
    norm_num [itemV, buildPortfolioItem, getSuccessfulBySipId, getBySipId,
      Store.values, txnsV, txnV1, txnV2, sipV]
  have hcv : itemV.currentValue = 2400 := by
    norm_num [itemV, buildPortfolioItem, getSuccessfulBySipId, getBySipId,
      Store.values, txnsV, txnV1, txnV2, sipV]
  have hgl : itemV.gainLoss = 300 := by
    norm_num [itemV, buildPortfolioItem, getSuccessfulBySipId, getBySipId,
      Store.values, txnsV, txnV1, txnV2, sipV]
  refine ⟨buildPortfolioItem_totalInvested txns sip fundName? (some nav),
    buildPortfolioItem_totalUnits txns sip fundName? (some nav),
    rfl, rfl, ?_, ?_, hti, htu, hcv, hgl, ?_, ?_⟩
  · intro h
    rw [buildPortfolioItem_gainLossPercentage, if_neg]
    rw [h]
    exact lt_irrefl 0
  · intro h
    rw [buildPortfolioItem_gainLossPercentage, if_pos h]
  · norm_num [itemV, buildPortfolioItem, getSuccessfulBySipId, getBySipId,
      Store.values, txnsV, txnV1, txnV2, sipV]
  · rw [show (100 : ℚ) / 7 - 1429 / 100 = -(3 / 700) by norm_num, abs_neg,
      abs_of_nonneg (by norm_num)]
    norm_num

/-!
## Scheduler lemmas
-/

theorem executeSIP_ok (navf : String → Option ℚ) (w : World) (sip : SIP)
    (d : Date) (navValue : ℚ) (hstate : sip.state = .ACTIVE)
    (hnav : navf sip.fundId = some navValue) :
    executeSIP navf w sip d =
      .ok { w with
        txns := w.txns.put (generateTransactionId w.nextId) (engineTransaction sip navValue d w.nextId)
        nextId := w.nextId + 1
        payments := w.payments ++ [⟨generateTransactionId w.nextId, (engineTransaction sip navValue d w.nextId).amount, sip.id⟩] } := by
  simp [executeSIP, hstate, hnav, engineTransaction, Transaction.mk6]

/-- C7 counterexample: at NAV −10 (non-positive, reachable through the
mock market service's unvalidated `setNAVs`), the engine-created
transaction records `units = 1000 / (−10) = −100`, not 0: `executeSIP`
overwrites the constructor's zero-guard with `setUnits(amount / nav)`
unconditionally. -/
theorem C7_units_counterexample :
    executeSIP navNegEx wX sipX ⟨2025, 1, 1⟩ =
      .ok { wX with
        txns := [(generateTransactionId 1, txnXresult)]
        nextId := 2
        payments := [⟨generateTransactionId 1, 1000, "S1"⟩] } ∧
    txnXresult.nav ≤ 0 ∧
    txnXresult.units = -100 ∧
    txnXresult.units ≠ 0 := by
  refine ⟨?_, by norm_num [txnXresult], by norm_num [txnXresult],
    by norm_num [txnXresult]⟩
  rw [executeSIP_ok navNegEx wX sipX ⟨2025, 1, 1⟩ (-10) rfl rfl]
  norm_num [engineTransaction, Transaction.mk6, txnXresult,
    SIPScheduler.calculateSteppedUpAmount, sipX, wX, Store.put]

/-- C7 (amended): every transaction created by the execution engine records
`units = amount / NAV` (in particular equal to `amount / NAV` whenever the
NAV is positive, as the claim's main clause states); the "0 when NAV
non-positive" clause holds only for the bare `Transaction` constructor,
whose zero-guard `executeSIP` overwrites via `setUnits`. -/
theorem C7_units_amended (navf : String → Option ℚ) (w : World) (sip : SIP)
    (d : Date) (navValue : ℚ) (hstate : sip.state = .ACTIVE)
    (hnav : navf sip.fundId = some navValue) (_hpos : 0 < navValue) :
    (executeSIP navf w sip d).toOption.bind
        (fun w' => w'.txns.get (generateTransactionId w.nextId)) =
      some (engineTransaction sip navValue d w.nextId) ∧
    (engineTransaction sip navValue d w.nextId).units =
      (engineTransaction sip navValue d w.nextId).amount / navValue ∧
    (∀ (id sid : String) (a nv : ℚ) (dt : Date) (ty : TransactionType),
      (Transaction.mk6 id sid a nv dt ty).units = if nv > 0 then a / nv else 0) := by
  refine ⟨?_, rfl, fun _ _ _ _ _ _ => rfl⟩
  rw [executeSIP_ok navf w sip d navValue hstate hnav]
  simp only [Except.toOption, Option.bind_some]
  exact Store.get_put_self _ _ _

theorem executeDueSIPs_count_aux (navf : String → Option ℚ) (asOfDate : Date) :
    ∀ (l : List SIP), (∀ sip ∈ l, sip.state = .ACTIVE) → ∀ (n : Nat) (w : World),
      (l.foldl
        (fun acc sip =>
          match executeSIP navf acc.2 sip asOfDate with
          | .ok w' => (acc.1 + 1, w')
          | .error _ => acc)
        (n, w)).1 =
      n + l.countP (fun sip => (navf sip.fundId).isSome) := by
  intro l
  induction l with
  | nil =>
    intro _ n w
    simp
  | cons sip t ih =>
    intro hall n w
    have hstate : sip.state = .ACTIVE := hall sip (by simp)
    have htail : ∀ s ∈ t, s.state = .ACTIVE := fun s hs => hall s (by simp [hs])
    cases hnav : navf sip.fundId with
    | none =>
      have hex : executeSIP navf w sip asOfDate =
          .error (.fundNotFound sip.fundId) := by
        simp [executeSIP, hstate, hnav]
      simp [List.foldl_cons, List.countP_cons, hex, hnav, ih htail n w]
    | some v =>
      have hex : executeSIP navf w sip asOfDate =
          .ok { w with
            txns := w.txns.put (generateTransactionId w.nextId) (engineTransaction sip v asOfDate w.nextId)
            nextId := w.nextId + 1
            payments := w.payments ++ [⟨generateTransactionId w.nextId, (engineTransaction sip v asOfDate w.nextId).amount, sip.id⟩] } :=
        executeSIP_ok navf w sip asOfDate v hstate hnav
      simp only [List.foldl_cons, List.countP_cons, hex, hnav, ih htail]
      simp [Nat.add_assoc, Nat.add_comm]

/-- C8: `executeDueSIPs` catches any per-SIP error at that SIP's boundary —
the returned count equals the number of due SIPs whose fund the price
oracle knows (execution initiated), regardless of failures among the
others — and when no SIP is due it returns 0 and performs no storage
writes (the world is returned unchanged). -/
theorem C8_executeDueSIPs (navf : String → Option ℚ) (w : World) (asOfDate : Date) :
    (executeDueSIPs navf w asOfDate).1 =
      (getDueSIPs w.sips asOfDate).countP (fun sip => (navf sip.fundId).isSome) ∧
    (getDueSIPs w.sips asOfDate = [] → executeDueSIPs navf w asOfDate = (0, w)) := by
  constructor
  · have hall : ∀ sip ∈ getDueSIPs w.sips asOfDate, sip.state = .ACTIVE := by
      intro sip hs
      simp only [getDueSIPs, List.mem_filter, Bool.and_eq_true,
        decide_eq_true_eq] at hs
      exact hs.2.1
    simpa [executeDueSIPs] using
      executeDueSIPs_count_aux navf asOfDate (getDueSIPs w.sips asOfDate) hall 0 w
  · intro h
    simp [executeDueSIPs, h]

/-!
## Witnesses: each hypothesis-bearing claim theorem applied at a concrete
input with its hypotheses discharged.
-/

/-- Witness for C1 at a concrete world with an unapplied PENDING
transaction and its owning ACTIVE SIP. -/
theorem C1_callback_idempotent_witness :
    wEx.txns.get "T1" = some txnEx ∧
    txnEx.callbackProcessed = false ∧
    wEx.sips.get "S1" = some sipEx ∧
    (∃ sip' : SIP,
      ((handlePaymentCallback wEx "T1" "S1" .SUCCESS).1).sips.get "S1" = some sip' ∧
      sip'.installmentCount = sipEx.installmentCount + 1 ∧
      ((handlePaymentCallback (handlePaymentCallback wEx "T1" "S1" .SUCCESS).1
          "T1" "S1" .SUCCESS).1).sips.get "S1" = some sip') :=
  ⟨rfl, rfl, rfl,
    C1_callback_idempotent.2.2 wEx "T1" "S1" txnEx sipEx rfl rfl rfl⟩

/-- Witness for C2: the base-amount branch of the spec formula at concrete
input. -/
theorem C2_steppedUpAmount_witness :
    ((0 : ℚ) ≤ 0 ∨ (5 : Int) ≤ 1) ∧ specSteppedUpAmount 1000 0 5 = 1000 :=
  ⟨Or.inl le_rfl,
    C2_steppedUpAmount_copies_agree.2.2.2.1 1000 0 5 (Or.inl le_rfl)⟩

/-- Witness for C3 at a concrete world. -/
theorem C3_failure_frame_witness :
    wEx.txns.get "T1" = some txnEx ∧
    txnEx.callbackProcessed = false ∧
    ((handlePaymentCallback wEx "T1" "S1" .FAILURE).1).sips = wEx.sips ∧
    ((handlePaymentCallback wEx "T1" "S1" .FAILURE).1).txns.get "T1" =
      some (txnEx.withOutcome .FAILURE) :=
  ⟨rfl, rfl, (C3_failure_frame wEx "T1" "S1" txnEx rfl rfl).2.1,
    (C3_failure_frame wEx "T1" "S1" txnEx rfl rfl).2.2.1⟩

/-- Witness for C4 at a concrete store. -/
theorem C4_advanceSchedule_witness :
    sipsEx.get "S1" = some sipEx ∧
    updateNextExecutionDate sipsEx "S1" =
      .ok (sipsEx.updIfPresent "S1"
        { sipEx with nextExecutionDate :=
            calculateNextExecutionDate sipEx.nextExecutionDate sipEx.frequency }) ∧
    dateLt sipEx.nextExecutionDate
      (calculateNextExecutionDate sipEx.nextExecutionDate sipEx.frequency) = true :=
  ⟨rfl, (C4_advanceSchedule sipsEx "S1" sipEx rfl).1,
    (C4_advanceSchedule sipsEx "S1" sipEx rfl).2.1⟩

/-- Witness for C5 at a concrete PAUSED SIP: pause is illegal (InvalidState
naming the SIP, its state and the operation), unpause and modifyStepUp
succeed. -/
theorem C5_lifecycle_guards_witness :
    sipsPausedEx.get "S1" = some sipPausedEx ∧
    sipPausedEx.state ≠ SIPState.ACTIVE ∧
    pauseSIP sipsPausedEx "S1" =
      .error (.invalidState "S1" "PAUSED" "pause") ∧
    unpauseSIP sipsPausedEx "S1" =
      .ok (sipsPausedEx.updIfPresent "S1" { sipPausedEx with state := .ACTIVE }) ∧
    (0 : ℚ) ≤ 5 ∧
    modifyStepUp sipsPausedEx "S1" 5 =
      .ok (sipsPausedEx.updIfPresent "S1"
        { sipPausedEx with stepUpPercentage := 5 }) := by
  have h := C5_lifecycle_guards sipsPausedEx "S1" sipPausedEx rfl
  exact ⟨rfl, by decide, h.2.1 (by decide), h.2.2.1 rfl, by norm_num,
    (h.2.2.2.2.2.2 5 (by norm_num)).1 (by decide)⟩

/-- Witness for C6: the zero-totalInvested guard at an empty ledger. -/
theorem C6_valuation_witness :
    (buildPortfolioItem [] sipV none (some 120)).totalInvested = 0 ∧
    (buildPortfolioItem [] sipV none (some 120)).gainLossPercentage = 0 :=
  ⟨rfl, (C6_valuation [] sipV none 120).2.2.2.2.1 rfl⟩

/-- Witness for the amended C7 at a concrete positive NAV. -/
theorem C7_units_amended_witness :
    sipX.state = SIPState.ACTIVE ∧
    navPosEx sipX.fundId = some 100 ∧
    (0 : ℚ) < 100 ∧
    (executeSIP navPosEx wX sipX ⟨2025, 1, 1⟩).toOption.bind
        (fun w' => w'.txns.get (generateTransactionId wX.nextId)) =
      some (engineTransaction sipX 100 ⟨2025, 1, 1⟩ wX.nextId) ∧
    (engineTransaction sipX 100 ⟨2025, 1, 1⟩ wX.nextId).units =
      (engineTransaction sipX 100 ⟨2025, 1, 1⟩ wX.nextId).amount / 100 := by
  have h := C7_units_amended navPosEx wX sipX ⟨2025, 1, 1⟩ 100 rfl rfl (by norm_num)
  exact ⟨rfl, rfl, by norm_num, h.1, h.2.1⟩

/-- Witness for C8: no due SIPs → count 0 and the world unchanged. -/
theorem C8_executeDueSIPs_witness :
    getDueSIPs wEmptyEx.sips dEx = [] ∧
    executeDueSIPs navPosEx wEmptyEx dEx = (0, wEmptyEx) :=
  ⟨rfl, (C8_executeDueSIPs navPosEx wEmptyEx dEx).2 rfl⟩

/-- Witness for C9 at a concrete world: FAILURE then SUCCESS redelivery. -/
theorem C9_first_delivery_wins_witness :
    wEx.txns.get "T1" = some txnEx ∧
    txnEx.callbackProcessed = false ∧
    handlePaymentCallback (handlePaymentCallback wEx "T1" "S1" .FAILURE).1
        "T1" "S1" .SUCCESS =
      ((handlePaymentCallback wEx "T1" "S1" .FAILURE).1, none) ∧
    ((handlePaymentCallback wEx "T1" "S1" .FAILURE).1).txns.get "T1" =
      some (txnEx.withOutcome .FAILURE) :=
  ⟨rfl, rfl, (C9_first_delivery_wins wEx "T1" "S1" txnEx rfl rfl).1,
    (C9_first_delivery_wins wEx "T1" "S1" txnEx rfl rfl).2.1⟩

/-- Witness for C10 at a concrete world whose SIP store is empty. -/
theorem C10_success_without_sip_witness :
    wNoSipEx.txns.get "T1" = some txnEx ∧
    txnEx.callbackProcessed = false ∧
    wNoSipEx.sips.get "S1" = none ∧
    handlePaymentCallback wNoSipEx "T1" "S1" .SUCCESS =
      ({ wNoSipEx with
          txns := wNoSipEx.txns.updIfPresent "T1" (txnEx.withOutcome .SUCCESS) },
        some (Err.sipNotFound "S1")) :=
  ⟨rfl, rfl, rfl,
    (C10_success_without_sip wNoSipEx "T1" "S1" txnEx rfl rfl rfl).1⟩

end SipSystems
